import Mathlib

/-!
Verification of the session-authentication core of `linkedin_api/client.py`
against its natural-language specification.

The embedding mirrors the source faithfully:
- `Cookie` models a cookie entry (name, value, optional integer expiry);
  Python truthiness of `cookie.value` is `value ≠ ""` and of `cookie.expires`
  is `expires = some e` with `e ≠ 0`.
- `tokenStillValid` embeds `Client._is_token_still_valid` (lines 112-121),
  with the current time passed explicitly instead of calling `time.time()`.
- `loadCookiesFromCache` embeds `Client._load_cookies_from_cache`
  (lines 77-88), with the pickle file store modelled as a partial map from
  username to cookie jar.
- `setSessionCookies` embeds `Client._set_session_cookies` (lines 96-106).
- `doAuthenticationRequest` embeds `Client._do_authentication_request`
  (lines 133-166); the two network endpoints are an environment parameter
  (`Env`), and every network request and cache-file write is recorded in an
  event trace.
- `authenticate` embeds `Client.authenticate` (lines 123-131).
Python exceptions are modelled by the `AuthError` outcome component;
a run returns the mutated client state, the outcome, and the event trace.
-/

namespace LinkedinClient

/-- A cookie entry: name, value, and optional expiry timestamp.
Python cookie values may be `None` or `""`; both are falsy, so a single
`String` field with `""` as the falsy case is a faithful model. `expires`
is `None` or an integer; `0` is falsy. -/
structure Cookie where
  name : String
  value : String
  expires : Option Int
  deriving Repr, DecidableEq

/-- A cookie jar is an ordered list of cookie entries. -/
abbrev CookieJar := List Cookie

/-- Truthiness of Python `cookie.expires`: `None` and `0` are falsy. -/
def expiresTruthy : Option Int → Bool
  | none => false
  | some e => e ≠ 0

/-- Embeds `Client._is_token_still_valid` (client.py lines 112-121):
scan the jar; at the first cookie with `name == "JSESSIONID"` and truthy
`value`, return whether `expires` is truthy and strictly greater than now,
and stop (the `break`); cookies whose name matches but whose value is falsy
are skipped, not a stopping point. -/
def tokenStillValid (cookies : CookieJar) (now : Int) : Bool :=
  match cookies with
  | [] => false
  | c :: rest =>
    if c.name = "JSESSIONID" ∧ c.value ≠ "" then
      expiresTruthy c.expires && decide (c.expires.getD 0 > now)
    else
      tokenStillValid rest now

/-- The first cookie in the jar that passes the source's match condition
`cookie.name == "JSESSIONID" and cookie.value`. -/
def firstSessionCookie (cookies : CookieJar) : Option Cookie :=
  cookies.find? (fun c => c.name = "JSESSIONID" && c.value ≠ "")

/-- `tokenStillValid` is fully determined by `firstSessionCookie`. -/
theorem tokenStillValid_eq_firstSessionCookie (cookies : CookieJar) (now : Int) :
  tokenStillValid cookies now =
    (match firstSessionCookie cookies with
     | none => false
     | some c => expiresTruthy c.expires && decide (c.expires.getD 0 > now)) := by
  induction cookies with
  | nil => rfl
  | cons c rest ih =>
    by_cases h : c.name = "JSESSIONID" ∧ c.value ≠ ""
    · simp [tokenStillValid, firstSessionCookie, List.find?, h.1, h.2, if_pos h]
    · rw [tokenStillValid, if_neg h, ih, firstSessionCookie, firstSessionCookie]
      have hb : (decide (c.name = "JSESSIONID") && !(decide (c.value = ""))) = false := by
        rcases not_and_or.mp h with h1 | h1
        · simp [h1]
        · simp [not_not.mp h1]
      simp [List.find?, hb]

/-- Python `str.strip('"')`: remove every leading and trailing `'"'`
character. -/
def stripQuotes (s : String) : String :=
  String.mk (((s.toList.dropWhile (fun ch => ch = '"')).reverse.dropWhile
    (fun ch => ch = '"')).reverse)

/-- Dictionary-style cookie access `cookiejar[name]` of the requests
library: the value of the first cookie bearing that name, or a `KeyError`
(`none`) when no cookie has the name. -/
def jarLookup (cookies : CookieJar) (key : String) : Option String :=
  (cookies.find? (fun c => c.name = key)).map (fun c => c.value)

/-- A parsed JSON object body, as an association list of string fields.
Python truthiness of `res.json()` is non-emptiness. -/
abbrev JsonBody := List (String × String)

/-- Python dict access `data[key]`: first binding of the key, `none`
modelling a `KeyError`. -/
def bodyLookup (body : JsonBody) (key : String) : Option String :=
  (body.find? (fun p => p.1 = key)).map (fun p => p.2)

/-- The exceptions the source can raise during authentication:
`ChallengeException(reason)` (line 158), `UnauthorizedException`
(line 161), the bare `Exception()` of line 164 — the spec's
`TransientFailure` — and Python `KeyError` from a dict or jar access. -/
inductive AuthError where
  | challenge (reason : String)
  | unauthorized
  | transientFailure
  | keyError (key : String)
  deriving Repr, DecidableEq

/-- Observable side effects of a run: the two network requests (the GET of
`_request_session_cookies` and the POST of `_do_authentication_request`)
and each cache-file write performed by `_set_session_cookies`. -/
inductive Event where
  | anonRequest
  | authRequest
  | storeWrite (username : String) (jar : CookieJar)
  deriving Repr, DecidableEq

/-- The live `requests.session()` state: its cookie jar and the
`csrf-token` header (the only header the core mutates). -/
structure Session where
  cookies : CookieJar
  csrfToken : Option String

/-- Client state: the session plus the cookie-file store, modelled as a
partial map from username to the pickled jar. -/
structure ClientState where
  session : Session
  store : String → Option CookieJar

/-- Result of running a client operation: the mutated state, the raised
exception if any (`none` = normal return), and the event trace. -/
structure RunResult where
  state : ClientState
  outcome : Option AuthError
  events : List Event

/-- The environment a full authentication observes: the cookies returned
by the anonymous GET endpoint, and the authentication POST endpoint's
response (status, parsed JSON body, response cookies). -/
structure AuthResponse where
  status : Int
  body : JsonBody
  cookies : CookieJar

structure Env where
  anonJar : CookieJar
  authResp : AuthResponse

/-- Store update performed by the `pickle.dump` of
`_set_session_cookies` (line 105-106): overwrite the file for `username`. -/
def updateStore (store : String → Option CookieJar) (username : String)
    (jar : CookieJar) : String → Option CookieJar :=
  fun s => if s = username then some jar else store s

/-- Embeds `Client._set_session_cookies` (client.py lines 96-106):
install the jar as the session's cookies, set the `csrf-token` header to
the jar's `JSESSIONID` value stripped of `'"'` characters, then pickle the
jar to the username's cookie file. A jar without a `JSESSIONID` cookie
raises `KeyError` after the cookies were installed but before the header
is set or the file written. -/
def setSessionCookies (st : ClientState) (cookiejar : CookieJar)
    (username : String) : RunResult :=
  let st1 : ClientState := { st with session := { st.session with cookies := cookiejar } }
  match jarLookup st1.session.cookies "JSESSIONID" with
  | none => { state := st1, outcome := some (AuthError.keyError "JSESSIONID"), events := [] }
  | some v =>
    let st2 : ClientState :=
      { st1 with session := { st1.session with csrfToken := some (stripQuotes v) } }
    { state := { st2 with store := updateStore st2.store username cookiejar },
      outcome := none,
      events := [Event.storeWrite username cookiejar] }

/-- Embeds `Client._load_cookies_from_cache` (client.py lines 77-88):
a missing file and a file whose unpickled jar is falsy (empty) both yield
`(False, None)`; otherwise `(True, cookies)`. -/
def loadCookiesFromCache (store : String → Option CookieJar)
    (username : String) : Bool × Option CookieJar :=
  match store username with
  | none => (false, none)
  | some cookies => if cookies ≠ [] then (true, some cookies) else (false, none)

/-- Status-code checks of `_do_authentication_request`
(client.py lines 160-166), reached only after the body-level challenge
check: 401 raises `UnauthorizedException`, any other non-200 status raises
the bare `Exception()`, and 200 installs and persists the response
cookies. -/
def interpretStatus (st : ClientState) (resp : AuthResponse)
    (username : String) : RunResult :=
  if resp.status = 401 then
    { state := st, outcome := some AuthError.unauthorized, events := [] }
  else if resp.status ≠ 200 then
    { state := st, outcome := some AuthError.transientFailure, events := [] }
  else
    setSessionCookies st resp.cookies username

/-- Response interpretation of `_do_authentication_request`
(client.py lines 155-166): `if data and data["login_result"] != "PASS"`
raises `ChallengeException(data["login_result"])` before any status check;
a truthy body without the field raises `KeyError`. -/
def interpretResponse (st : ClientState) (resp : AuthResponse)
    (username : String) : RunResult :=
  if resp.body ≠ [] then
    match bodyLookup resp.body "login_result" with
    | none => { state := st, outcome := some (AuthError.keyError "login_result"), events := [] }
    | some r =>
      if r ≠ "PASS" then
        { state := st, outcome := some (AuthError.challenge r), events := [] }
      else
        interpretStatus st resp username
  else
    interpretStatus st resp username

/-- Embeds `Client._do_authentication_request` (client.py lines 133-166):
GET the anonymous cookies, install and persist them via
`_set_session_cookies`, build the payload (reading the session jar's
`JSESSIONID`), POST to the authentication endpoint, and interpret the
response. -/
def doAuthenticationRequest (env : Env) (st : ClientState)
    (username password : String) : RunResult :=
  let r1 := setSessionCookies st env.anonJar username
  match r1.outcome with
  | some e => { state := r1.state, outcome := some e, events := Event.anonRequest :: r1.events }
  | none =>
    match jarLookup r1.state.session.cookies "JSESSIONID" with
    | none =>
      { state := r1.state, outcome := some (AuthError.keyError "JSESSIONID"),
        events := Event.anonRequest :: r1.events }
    | some _ =>
      let r2 := interpretResponse r1.state env.authResp username
      { state := r2.state, outcome := r2.outcome,
        events := Event.anonRequest :: r1.events ++ Event.authRequest :: r2.events }

/-- The form payload of lines 141-145 (`session_key`, `session_password`,
and the raw, unstripped `JSESSIONID` of the session jar). It has no
observable effect in the model but records what the POST carries. -/
def authPayload (st : ClientState) (username password : String) :
    String × String × Option String :=
  (username, password, jarLookup st.session.cookies "JSESSIONID")

/-- Embeds `Client.authenticate` (client.py lines 123-131): when the
cookie cache is in use, load the cached jar and return immediately if it
was found and its token is still valid; otherwise perform the full
authentication request. `now` stands for the `time.time()` read inside
`_is_token_still_valid`. -/
def authenticate (env : Env) (useCookieCache : Bool) (now : Int)
    (st : ClientState) (username password : String) : RunResult :=
  if useCookieCache then
    match loadCookiesFromCache st.store username with
    | (true, some cookies) =>
      if tokenStillValid cookies now then
        { state := st, outcome := none, events := [] }
      else
        doAuthenticationRequest env st username password
    | _ => doAuthenticationRequest env st username password
  else
    doAuthenticationRequest env st username password

end LinkedinClient

namespace LinkedinClient

/-! ## Concrete fixtures used by witnesses and counterexamples -/

/-- Fresh client: empty session, no cookie file for any username. -/
def st0 : ClientState :=
  { session := { cookies := [], csrfToken := none }, store := fun _ => none }

/-- A cached jar with a valid session token (from the perspective of
`now = 10`). -/
def jarValid : CookieJar := [⟨"JSESSIONID", "tok", some 100⟩]

/-- Client whose cookie file for `"alice"` holds `jarValid`. -/
def stCached : ClientState :=
  { session := { cookies := [], csrfToken := none },
    store := fun s => if s = "alice" then some jarValid else none }

/-- Client whose cookie file for `"alice"` unpickles to an empty jar. -/
def stEmptyCache : ClientState :=
  { session := { cookies := [], csrfToken := none },
    store := fun s => if s = "alice" then some [] else none }

/-- The end-to-end environment of spec §8.7: the anonymous endpoint issues
`JSESSIONID="abc"` expiring in one hour, the authentication endpoint
answers 200 with `login_result = "PASS"` and `JSESSIONID="xyz"` expiring
in a day. -/
def envPass : Env :=
  { anonJar := [⟨"JSESSIONID", "abc", some 3600⟩],
    authResp :=
      { status := 200,
        body := [("login_result", "PASS")],
        cookies := [⟨"JSESSIONID", "xyz", some 86400⟩] } }

/-- Status 401 together with a challenge body. -/
def envChallenge401 : Env :=
  { anonJar := [⟨"JSESSIONID", "abc", some 3600⟩],
    authResp := { status := 401, body := [("login_result", "CHALLENGE")], cookies := [] } }

/-- Status 401 with an empty (falsy) body. -/
def env401Empty : Env :=
  { anonJar := [⟨"JSESSIONID", "abc", some 3600⟩],
    authResp := { status := 401, body := [], cookies := [] } }

/-- Status 500 with a passing body. -/
def env500 : Env :=
  { anonJar := [⟨"JSESSIONID", "abc", some 3600⟩],
    authResp := { status := 500, body := [("login_result", "PASS")], cookies := [] } }

/-- Same as `env500` except for the status code. -/
def env503 : Env :=
  { anonJar := [⟨"JSESSIONID", "abc", some 3600⟩],
    authResp := { status := 503, body := [("login_result", "PASS")], cookies := [] } }

/-- A jar whose only session cookie has a future expiry but an empty
(falsy) value. -/
def jarEmptyValue : CookieJar := [⟨"JSESSIONID", "", some 100⟩]

/-- Two jars sharing their first `JSESSIONID`-named cookie (empty value,
future expiry) but differing in the second one's expiry. -/
def jarSkipA : CookieJar :=
  [⟨"JSESSIONID", "", some 100⟩, ⟨"JSESSIONID", "b", some 100⟩]

def jarSkipB : CookieJar :=
  [⟨"JSESSIONID", "", some 100⟩, ⟨"JSESSIONID", "b", some 5⟩]

/-- A jar whose session-cookie value is wrapped in double quotes. -/
def jarQuoted : CookieJar := [⟨"JSESSIONID", "\"tok\"", some 100⟩]

/-! ## C2 — token validation verdicts -/

/-- Claim C2, counterexample. The claim asserts that any jar containing a
`JSESSIONID` cookie with expiry strictly greater than `now` is valid. The
source additionally requires a truthy cookie value: a jar whose only
session cookie has an empty value and a future expiry is reported
invalid, refuting the claim at a concrete input. -/
theorem tokenStillValid_future_expiry_not_sufficient :
    ¬ (∀ (jar : CookieJar) (now : Int),
        (∃ c ∈ jar, c.name = "JSESSIONID" ∧ ∃ e, c.expires = some e ∧ now < e) →
        tokenStillValid jar now = true) := by
  intro h
  have h2 := h jarEmptyValue 10
    ⟨⟨"JSESSIONID", "", some 100⟩, by simp [jarEmptyValue], rfl, 100, rfl, by norm_num⟩
  exact absurd h2 (by decide)

/-- Claim C2, amended: the verdict is read off the first `JSESSIONID`
cookie whose value is non-empty — true exactly when such a cookie exists
and carries an expiry that is present, non-zero and strictly greater than
`now`; in every other case (no such cookie, no expiry, zero expiry, or
expiry at or before `now`) the verdict is false. -/
theorem tokenStillValid_verdict (jar : CookieJar) (now : Int) :
    tokenStillValid jar now = true ↔
      ∃ c, firstSessionCookie jar = some c ∧
        ∃ e, c.expires = some e ∧ e ≠ 0 ∧ now < e := by
  rw [tokenStillValid_eq_firstSessionCookie]
  cases hf : firstSessionCookie jar with
  | none => simp
  | some c =>
    cases he : c.expires with
    | none => simp [expiresTruthy, he]
    | some e => simp [expiresTruthy, he]

/-- Instantiation of `tokenStillValid_verdict` at a concrete jar. -/
theorem tokenStillValid_verdict_witness :
    tokenStillValid jarValid 10 = true ↔
      ∃ c, firstSessionCookie jarValid = some c ∧
        ∃ e, c.expires = some e ∧ e ≠ 0 ∧ (10 : Int) < e :=
  tokenStillValid_verdict jarValid 10

/-! ## C7 — which cookie decides the verdict -/

/-- Claim C7, counterexample. Both jars hold two `JSESSIONID` cookies and
share their first occurrence, yet the verdicts differ, because the source
skips (rather than stops at) a name match whose value is falsy. -/
theorem first_jsessionid_does_not_determine_verdict :
    2 ≤ jarSkipA.countP (fun c => c.name = "JSESSIONID") ∧
    2 ≤ jarSkipB.countP (fun c => c.name = "JSESSIONID") ∧
    jarSkipA.find? (fun c => c.name = "JSESSIONID") =
      jarSkipB.find? (fun c => c.name = "JSESSIONID") ∧
    tokenStillValid jarSkipA 10 = true ∧
    tokenStillValid jarSkipB 10 = false := by
  refine ⟨by decide, by decide, by decide, by decide, by decide⟩

/-- Claim C7, amended: the verdict is determined solely by the first
`JSESSIONID` cookie with a non-empty value (`firstSessionCookie`);
earlier `JSESSIONID` cookies with falsy values are skipped, and
validation stops at that first truthy match. -/
theorem tokenStillValid_determined_by_firstSessionCookie
    (j1 j2 : CookieJar) (now : Int)
    (h : firstSessionCookie j1 = firstSessionCookie j2) :
    tokenStillValid j1 now = tokenStillValid j2 now := by
  rw [tokenStillValid_eq_firstSessionCookie, tokenStillValid_eq_firstSessionCookie, h]

/-- Witness: `jarSkipA` and the singleton jar with its truthy session
cookie agree on `firstSessionCookie`, hence on the verdict. -/
theorem tokenStillValid_determined_by_firstSessionCookie_witness :
    tokenStillValid jarSkipA 10 =
      tokenStillValid [⟨"JSESSIONID", "b", some 100⟩] 10 :=
  tokenStillValid_determined_by_firstSessionCookie jarSkipA
    [⟨"JSESSIONID", "b", some 100⟩] 10 (by decide)

end LinkedinClient

namespace LinkedinClient

/-! ## C1 — valid cache short-circuits the network -/

/-- Claim C1: with cache reuse enabled, a successful cache load whose jar
the validator accepts makes `authenticate` return immediately — the state
is untouched and the event trace is empty, so no network request and
neither the anonymous-session GET nor the authentication POST happens. -/
theorem authenticate_cached_valid_no_network
    (env : Env) (st : ClientState) (username password : String) (now : Int)
    (jar : CookieJar) (hload : st.store username = some jar) (hne : jar ≠ [])
    (hvalid : tokenStillValid jar now = true) :
    authenticate env true now st username password =
      { state := st, outcome := none, events := [] } := by
  unfold authenticate loadCookiesFromCache
  rw [hload]
  simp [hne, hvalid]

/-- Witness for `authenticate_cached_valid_no_network` at the cached
client `stCached`. -/
theorem authenticate_cached_valid_no_network_witness :
    authenticate envPass true 10 stCached "alice" "pw" =
      { state := stCached, outcome := none, events := [] } :=
  authenticate_cached_valid_no_network envPass stCached "alice" "pw" 10
    jarValid rfl (by decide) (by decide)

/-! ## C9 — an empty unpickled jar is a cache miss -/

/-- Claim C9: a cookie file that deserializes to an empty (falsy) jar
makes `loadCookiesFromCache` return the same `(False, None)` as a missing
file, so `authenticate` falls through to the full network
authentication. -/
theorem empty_cached_jar_is_cache_miss
    (env : Env) (st : ClientState) (username password : String) (now : Int)
    (h : st.store username = some []) :
    loadCookiesFromCache st.store username = (false, none) ∧
    loadCookiesFromCache (fun _ => none) username = (false, none) ∧
    authenticate env true now st username password =
      doAuthenticationRequest env st username password := by
  have hl : loadCookiesFromCache st.store username = (false, none) := by
    simp [loadCookiesFromCache, h]
  refine ⟨hl, rfl, ?_⟩
  unfold authenticate
  rw [hl]
  simp

/-- Witness for `empty_cached_jar_is_cache_miss` at `stEmptyCache`. -/
theorem empty_cached_jar_is_cache_miss_witness :
    loadCookiesFromCache stEmptyCache.store "alice" = (false, none) ∧
    loadCookiesFromCache (fun _ => none) "alice" = (false, none) ∧
    authenticate envPass true 0 stEmptyCache "alice" "pw" =
      doAuthenticationRequest envPass stEmptyCache "alice" "pw" :=
  empty_cached_jar_is_cache_miss envPass stEmptyCache "alice" "pw" 0 (by decide)

/-! ## C10 — the `_set_session_cookies` invariant -/

/-- Claim C10: a successful `_set_session_cookies(jar, username)` leaves
the session's cookies equal to the given jar and the `csrf-token` header
equal to the jar's `JSESSIONID` value with its double-quote characters
stripped, and persists the jar for the username; on a jar without a
`JSESSIONID` cookie the call fails with a `KeyError`. -/
theorem setSessionCookies_establishes_invariant
    (st : ClientState) (jar : CookieJar) (username : String) :
    (∀ v, jarLookup jar "JSESSIONID" = some v →
      (setSessionCookies st jar username).state.session.cookies = jar ∧
      (setSessionCookies st jar username).state.session.csrfToken =
        some (stripQuotes v) ∧
      (setSessionCookies st jar username).state.store username = some jar ∧
      (setSessionCookies st jar username).outcome = none) ∧
    (jarLookup jar "JSESSIONID" = none →
      (setSessionCookies st jar username).outcome =
        some (AuthError.keyError "JSESSIONID")) := by
  constructor
  · intro v hv
    simp [setSessionCookies, hv, updateStore]
  · intro hv
    simp [setSessionCookies, hv]

/-- Witness for `setSessionCookies_establishes_invariant`: the quoted
value `"tok"` is stripped, and the empty jar raises the `KeyError`. -/
theorem setSessionCookies_establishes_invariant_witness :
    (setSessionCookies st0 jarQuoted "alice").state.session.csrfToken =
      some (stripQuotes "\"tok\"") ∧
    (setSessionCookies st0 [] "alice").outcome =
      some (AuthError.keyError "JSESSIONID") :=
  ⟨((setSessionCookies_establishes_invariant st0 jarQuoted "alice").1
      "\"tok\"" rfl).2.1,
   (setSessionCookies_establishes_invariant st0 [] "alice").2 rfl⟩

end LinkedinClient

namespace LinkedinClient

/-- A body with a `login_result` binding is truthy (non-empty). -/
theorem bodyLookup_some_ne_nil (body : JsonBody) (key r : String)
    (h : bodyLookup body key = some r) : body ≠ [] := by
  intro h0
  rw [h0] at h
  simp [bodyLookup] at h

/-! ## C3 — the challenge check precedes the status checks -/

/-- Claim C3: whenever the authentication endpoint's body carries a
`login_result` different from `"PASS"`, the request fails with
`ChallengeException` carrying that value — for every HTTP status code,
because line 157 runs before either status check. The anonymous jar is
assumed to carry a `JSESSIONID`, i.e. the POST is actually reached. -/
theorem challenge_checked_before_status
    (env : Env) (st : ClientState) (username password v r : String)
    (hanon : jarLookup env.anonJar "JSESSIONID" = some v)
    (hbody : bodyLookup env.authResp.body "login_result" = some r)
    (hr : r ≠ "PASS") :
    (doAuthenticationRequest env st username password).outcome =
      some (AuthError.challenge r) := by
  have hne := bodyLookup_some_ne_nil env.authResp.body "login_result" r hbody
  simp [doAuthenticationRequest, setSessionCookies, interpretResponse,
    hanon, hbody, hne, hr]

/-- Witness for `challenge_checked_before_status`: HTTP 401 together with
body `login_result = "CHALLENGE"` yields the challenge outcome, not
`Unauthorized`. -/
theorem challenge_checked_before_status_witness :
    (doAuthenticationRequest envChallenge401 st0 "alice" "pw").outcome =
      some (AuthError.challenge "CHALLENGE") :=
  challenge_checked_before_status envChallenge401 st0 "alice" "pw"
    "abc" "CHALLENGE" rfl rfl (by decide)

/-! ## C5 — status 401 -/

/-- Claim C5, counterexample. A 401 response whose (present) body carries
`login_result = "CHALLENGE"` makes the request fail with the challenge
exception, not `UnauthorizedException`: the claim's "even if a body is
present" does not survive a non-passing body. -/
theorem status401_with_challenge_body_not_unauthorized :
    envChallenge401.authResp.status = 401 ∧
    envChallenge401.authResp.body ≠ [] ∧
    (doAuthenticationRequest envChallenge401 st0 "alice" "pw").outcome =
      some (AuthError.challenge "CHALLENGE") ∧
    (doAuthenticationRequest envChallenge401 st0 "alice" "pw").outcome ≠
      some AuthError.unauthorized := by
  refine ⟨rfl, by decide, by decide, by decide⟩

/-- Claim C5, amended: a 401 response whose body passes the body-level
challenge check — the body is empty (falsy) or its `login_result` equals
`"PASS"` — makes the request fail with `UnauthorizedException`. -/
theorem status401_unauthorized
    (env : Env) (st : ClientState) (username password v : String)
    (hanon : jarLookup env.anonJar "JSESSIONID" = some v)
    (hbody : env.authResp.body = [] ∨
      bodyLookup env.authResp.body "login_result" = some "PASS")
    (hstatus : env.authResp.status = 401) :
    (doAuthenticationRequest env st username password).outcome =
      some AuthError.unauthorized := by
  rcases hbody with hb | hb
  · simp [doAuthenticationRequest, setSessionCookies, interpretResponse,
      interpretStatus, hanon, hb, hstatus]
  · have hne := bodyLookup_some_ne_nil env.authResp.body "login_result" "PASS" hb
    simp [doAuthenticationRequest, setSessionCookies, interpretResponse,
      interpretStatus, hanon, hb, hne, hstatus]

/-- Witness for `status401_unauthorized` at the empty-body 401
response. -/
theorem status401_unauthorized_witness :
    (doAuthenticationRequest env401Empty st0 "alice" "pw").outcome =
      some AuthError.unauthorized :=
  status401_unauthorized env401Empty st0 "alice" "pw" "abc" rfl
    (Or.inl rfl) rfl

/-! ## C8 — other statuses -/

/-- Claim C8, counterexample. Line 164 raises a bare `Exception()`: the
failure outcome for status 500 and for status 503 is one and the same
value, so it cannot carry the status code the claim says it carries. -/
theorem transient_failure_carries_no_status :
    env500.authResp.status ≠ env503.authResp.status ∧
    (doAuthenticationRequest env500 st0 "alice" "pw").outcome =
      (doAuthenticationRequest env503 st0 "alice" "pw").outcome ∧
    (doAuthenticationRequest env500 st0 "alice" "pw").outcome =
      some AuthError.transientFailure := by
  refine ⟨by decide, by decide, by decide⟩

/-- Claim C8, amended: when the body passes the challenge check and the
status is neither 200 nor 401, the request fails with the one generic
transient-failure exception, which carries no status code. -/
theorem non200_non401_transient_failure
    (env : Env) (st : ClientState) (username password v : String)
    (hanon : jarLookup env.anonJar "JSESSIONID" = some v)
    (hbody : env.authResp.body = [] ∨
      bodyLookup env.authResp.body "login_result" = some "PASS")
    (h401 : env.authResp.status ≠ 401) (h200 : env.authResp.status ≠ 200) :
    (doAuthenticationRequest env st username password).outcome =
      some AuthError.transientFailure := by
  rcases hbody with hb | hb
  · simp [doAuthenticationRequest, setSessionCookies, interpretResponse,
      interpretStatus, hanon, hb, h401, h200]
  · have hne := bodyLookup_some_ne_nil env.authResp.body "login_result" "PASS" hb
    simp [doAuthenticationRequest, setSessionCookies, interpretResponse,
      interpretStatus, hanon, hb, hne, h401, h200]

/-- Witness for `non200_non401_transient_failure` at status 500. -/
theorem non200_non401_transient_failure_witness :
    (doAuthenticationRequest env500 st0 "alice" "pw").outcome =
      some AuthError.transientFailure :=
  non200_non401_transient_failure env500 st0 "alice" "pw" "abc" rfl
    (Or.inr rfl) (by decide) (by decide)

end LinkedinClient

namespace LinkedinClient

/-- Branch analysis of `interpretStatus`: it writes the cache exactly when
it returns normally, and that write is the response jar. -/
theorem interpretStatus_events (st : ClientState) (resp : AuthResponse)
    (username : String) :
    ((interpretStatus st resp username).outcome = none →
      (interpretStatus st resp username).events =
        [Event.storeWrite username resp.cookies]) ∧
    ((interpretStatus st resp username).outcome ≠ none →
      (interpretStatus st resp username).events = []) := by
  by_cases h1 : resp.status = 401
  · simp [interpretStatus, h1]
  · by_cases h2 : resp.status = 200
    · cases hj : jarLookup resp.cookies "JSESSIONID" with
      | none => simp [interpretStatus, setSessionCookies, h1, h2, hj]
      | some v => simp [interpretStatus, setSessionCookies, h1, h2, hj]
    · simp [interpretStatus, h1, h2]

/-- Branch analysis of `interpretResponse`: same as
`interpretStatus_events`, with the challenge branches writing nothing. -/
theorem interpretResponse_events (st : ClientState) (resp : AuthResponse)
    (username : String) :
    ((interpretResponse st resp username).outcome = none →
      (interpretResponse st resp username).events =
        [Event.storeWrite username resp.cookies]) ∧
    ((interpretResponse st resp username).outcome ≠ none →
      (interpretResponse st resp username).events = []) := by
  by_cases hb : resp.body = []
  · simpa [interpretResponse, hb] using interpretStatus_events st resp username
  · cases hlk : bodyLookup resp.body "login_result" with
    | none => simp [interpretResponse, hb, hlk]
    | some r =>
      by_cases hr : r = "PASS"
      · simpa [interpretResponse, hb, hlk, hr] using
          interpretStatus_events st resp username
      · simp [interpretResponse, hb, hlk, hr]

end LinkedinClient

namespace LinkedinClient

/-- The state after installing the anonymous jar (value `v`) for
`username`, as produced by `setSessionCookies`. -/
def stateAfterAnon (st : ClientState) (anonJar : CookieJar)
    (username v : String) : ClientState :=
  { session := { cookies := anonJar, csrfToken := some (stripQuotes v) },
    store := updateStore st.store username anonJar }

/-- Reduction of `doAuthenticationRequest` when the anonymous jar carries
a `JSESSIONID`: the run is the anonymous GET, the cache write of the
anonymous jar, the POST, and then whatever the response interpretation
does from the post-anonymous state. -/
theorem doAuthenticationRequest_eq (env : Env) (st : ClientState)
    (username password v : String)
    (hanon : jarLookup env.anonJar "JSESSIONID" = some v) :
    doAuthenticationRequest env st username password =
      { state := (interpretResponse (stateAfterAnon st env.anonJar username v)
          env.authResp username).state,
        outcome := (interpretResponse (stateAfterAnon st env.anonJar username v)
          env.authResp username).outcome,
        events := Event.anonRequest :: Event.storeWrite username env.anonJar ::
          Event.authRequest ::
          (interpretResponse (stateAfterAnon st env.anonJar username v)
            env.authResp username).events } := by
  have hset : setSessionCookies st env.anonJar username =
      { state := stateAfterAnon st env.anonJar username v,
        outcome := none,
        events := [Event.storeWrite username env.anonJar] } := by
    simp [setSessionCookies, stateAfterAnon, hanon, updateStore]
  unfold doAuthenticationRequest
  rw [hset]
  simp [stateAfterAnon, hanon]

end LinkedinClient

namespace LinkedinClient

/-! ## C4 — when the cache file is written -/

/-- Claim C4, counterexample. With no cache file for `"alice"`, a run
whose authentication endpoint answers 401 still writes the anonymous jar
to `"alice"`'s cache file — a cache write happened although the response
was never interpreted as a success (line 139 calls
`_set_session_cookies`, which pickles the jar, before the POST). -/
theorem store_written_before_failure_outcome :
    st0.store "alice" = none ∧
    (authenticate env401Empty true 0 st0 "alice" "pw").outcome =
      some AuthError.unauthorized ∧
    (authenticate env401Empty true 0 st0 "alice" "pw").events =
      [Event.anonRequest, Event.storeWrite "alice" env401Empty.anonJar,
        Event.authRequest] ∧
    (authenticate env401Empty true 0 st0 "alice" "pw").state.store "alice" =
      some env401Empty.anonJar := by
  refine ⟨rfl, by decide, by decide, by decide⟩

/-- Claim C4, amended: each full authentication writes the cache file
twice — the anonymous jar is persisted before the authentication
response is interpreted, and the response jar is persisted exactly when
the response is interpreted as a success (so after a failure the
identity's cache file holds the anonymous jar). -/
theorem doAuthenticationRequest_write_order
    (env : Env) (st : ClientState) (username password v : String)
    (hanon : jarLookup env.anonJar "JSESSIONID" = some v) :
    ∃ tail,
      (doAuthenticationRequest env st username password).events =
        Event.anonRequest :: Event.storeWrite username env.anonJar ::
          Event.authRequest :: tail ∧
      ((doAuthenticationRequest env st username password).outcome = none →
        tail = [Event.storeWrite username env.authResp.cookies]) ∧
      ((doAuthenticationRequest env st username password).outcome ≠ none →
        tail = []) := by
  rw [doAuthenticationRequest_eq env st username password v hanon]
  exact ⟨_, rfl,
    (interpretResponse_events (stateAfterAnon st env.anonJar username v)
      env.authResp username).1,
    (interpretResponse_events (stateAfterAnon st env.anonJar username v)
      env.authResp username).2⟩

/-- Witness for `doAuthenticationRequest_write_order` on the successful
end-to-end environment. -/
theorem doAuthenticationRequest_write_order_witness :
    ∃ tail,
      (doAuthenticationRequest envPass st0 "alice" "pw").events =
        Event.anonRequest :: Event.storeWrite "alice" envPass.anonJar ::
          Event.authRequest :: tail ∧
      ((doAuthenticationRequest envPass st0 "alice" "pw").outcome = none →
        tail = [Event.storeWrite "alice" envPass.authResp.cookies]) ∧
      ((doAuthenticationRequest envPass st0 "alice" "pw").outcome ≠ none →
        tail = []) :=
  doAuthenticationRequest_write_order envPass st0 "alice" "pw" "abc" rfl

/-! ## C6 — end-to-end success path -/

/-- Claim C6: for `"alice"` with no cache file, anonymous jar
`JSESSIONID="abc"` (expires +1h) and a 200/`PASS` response with jar
`JSESSIONID="xyz"` (expires +24h), `authenticate` returns normally, the
persisted cache for `"alice"` is the response jar, and the session ends
on the response jar, which supersedes the anonymous one. -/
theorem authenticate_end_to_end_success :
    st0.store "alice" = none ∧
    (authenticate envPass true 0 st0 "alice" "pw").outcome = none ∧
    (authenticate envPass true 0 st0 "alice" "pw").state.store "alice" =
      some envPass.authResp.cookies ∧
    (authenticate envPass true 0 st0 "alice" "pw").state.session.cookies =
      envPass.authResp.cookies ∧
    envPass.authResp.cookies = [⟨"JSESSIONID", "xyz", some 86400⟩] ∧
    envPass.anonJar ≠ envPass.authResp.cookies := by
  refine ⟨rfl, by decide, by decide, by decide, rfl, by decide⟩

end LinkedinClient
